import Mathlib

/-
  Shallow embedding of `Sources/EngineCoreC/visitors.c` (and its header
  `include/visitors.h`) from the Engine repository.

  The C file is boundary glue: it exposes accessors returning the addresses
  of statically linked Swift protocol descriptor symbols, forwards visitor
  calls to fixed underlying entry points, wraps two Swift runtime queries,
  and computes a compile-time version-gated feature flag.

  Modelling decisions:
  - Each `extern char $s...Mp` symbol is a constructor of `ProtocolSymbol`.
    Distinct statically linked objects have distinct, non-null addresses in C,
    so an address is modelled by `Addr`: either the address of one of these
    symbols, an arbitrary other runtime address, or null.
  - The preprocessor platform macros (`TARGET_OS_IOS`, ...) become boolean
    fields of `Target`; the `#if / #elif / #else` chains in the C source are
    translated if-chains over those fields, in the same order.
  - The `*_VERSION_MAX_ALLOWED` macros become `Option Nat` fields of
    `BuildConfig` (`none` = macro not defined), with the Apple availability
    encoding of version numbers (major*10000 + minor*100) as `Nat` constants.
  - An underlying `_swift_visit_*` invocation is recorded as a `VisitCall`
    (which entry point, and the positional argument list); a C function body
    is translated to the list of invocations it performs, so "exactly one
    visitor fires" is "the trace is a one-element list".
  - The Swift runtime functions `swift_conformsToProtocol` and
    `swift_isClassType` are external: they are passed in as function
    parameters, and the wrappers also return the list of calls they made to
    them.
-/

namespace EngineCoreC

/-- The statically linked protocol descriptor symbols declared with
`extern char` in visitors.c (`$s7SwiftUI14EnvironmentKeyMp`, ...,
`$s10EngineCore9MultiViewMp`, and the platform-gated representable ones). -/
inductive ProtocolSymbol where
  | environmentKey
  | viewTraitKey
  | view
  | viewModifier
  | multiView
  | uiViewRepresentable
  | uiViewControllerRepresentable
  | nsViewRepresentable
  | nsViewControllerRepresentable
  deriving DecidableEq, Repr

/-- A C pointer value: null, the address of one of the statically linked
descriptor symbols, or some other runtime address. Distinct statically
linked objects have distinct addresses, and no object has address null. -/
inductive Addr where
  | null
  | symbol (s : ProtocolSymbol)
  | runtime (n : Nat)
  deriving DecidableEq, Repr

/-- The platform-family macros from TargetConditionals.h that visitors.c
tests, as compile-time configuration. -/
structure Target where
  TARGET_OS_IOS : Bool
  TARGET_OS_TV : Bool
  TARGET_OS_VISION : Bool
  TARGET_OS_OSX : Bool
  deriving DecidableEq, Repr

/-- Accessor `_EnvironmentKeyProtocolDescriptor`: returns the address of the
symbol `$s7SwiftUI14EnvironmentKeyMp`. -/
def _EnvironmentKeyProtocolDescriptor : Addr := .symbol .environmentKey

/-- Accessor `_ViewTraitKeyProtocolDescriptor`: address of
`$s7SwiftUI13_ViewTraitKeyMp`. -/
def _ViewTraitKeyProtocolDescriptor : Addr := .symbol .viewTraitKey

/-- Accessor `_ViewProtocolDescriptor`: address of `$s7SwiftUI4ViewMp`. -/
def _ViewProtocolDescriptor : Addr := .symbol .view

/-- Accessor `_ViewModifierProtocolDescriptor`: address of
`$s7SwiftUI12ViewModifierMp`. -/
def _ViewModifierProtocolDescriptor : Addr := .symbol .viewModifier

/-- Accessor `_MultiViewProtocolDescriptor`: address of
`$s10EngineCore9MultiViewMp`. -/
def _MultiViewProtocolDescriptor : Addr := .symbol .multiView

/-- Accessor `_UIViewRepresentableProtocolDescriptor` (compiled when
`TARGET_OS_IOS || TARGET_OS_TV || TARGET_OS_VISION`). -/
def _UIViewRepresentableProtocolDescriptor : Addr := .symbol .uiViewRepresentable

/-- Accessor `_UIViewControllerRepresentableProtocolDescriptor` (same guard). -/
def _UIViewControllerRepresentableProtocolDescriptor : Addr :=
  .symbol .uiViewControllerRepresentable

/-- Accessor `_NSViewRepresentableProtocolDescriptor` (compiled when
`TARGET_OS_OSX`). -/
def _NSViewRepresentableProtocolDescriptor : Addr := .symbol .nsViewRepresentable

/-- Accessor `_NSViewControllerRepresentableProtocolDescriptor` (same guard). -/
def _NSViewControllerRepresentableProtocolDescriptor : Addr :=
  .symbol .nsViewControllerRepresentable

/-- The registry operation of the spec, `descriptor_for(protocol_name)`:
dispatches to the accessor for each known protocol name. The `_call`
argument indexes the call site, so stability across calls is expressible;
no accessor reads any state, so the result ignores it. -/
def descriptor_for (p : ProtocolSymbol) (_call : Nat) : Addr :=
  match p with
  | .environmentKey => _EnvironmentKeyProtocolDescriptor
  | .viewTraitKey => _ViewTraitKeyProtocolDescriptor
  | .view => _ViewProtocolDescriptor
  | .viewModifier => _ViewModifierProtocolDescriptor
  | .multiView => _MultiViewProtocolDescriptor
  | .uiViewRepresentable => _UIViewRepresentableProtocolDescriptor
  | .uiViewControllerRepresentable => _UIViewControllerRepresentableProtocolDescriptor
  | .nsViewRepresentable => _NSViewRepresentableProtocolDescriptor
  | .nsViewControllerRepresentable => _NSViewControllerRepresentableProtocolDescriptor

/-- Which descriptor accessor symbols are compiled in for a given target:
the five unconditional ones, the UI pair under
`#if TARGET_OS_IOS || TARGET_OS_TV || TARGET_OS_VISION`, and the NS pair
under `#if TARGET_OS_OSX`, mirroring the guards in visitors.c. -/
def compiledDescriptorSymbols (t : Target) : List ProtocolSymbol :=
  [.environmentKey, .viewTraitKey, .view, .viewModifier, .multiView]
    ++ (if t.TARGET_OS_IOS || t.TARGET_OS_TV || t.TARGET_OS_VISION then
          [.uiViewRepresentable, .uiViewControllerRepresentable]
        else [])
    ++ (if t.TARGET_OS_OSX then
          [.nsViewRepresentable, .nsViewControllerRepresentable]
        else [])

/-- The underlying `_swift_visit_*` entry points declared in visitors.h. -/
inductive VisitFn where
  | environmentKey
  | viewTraitKey
  | view
  | viewModifier
  | multiView
  | uiViewRepresentable
  | uiViewControllerRepresentable
  | nsViewRepresentable
  | nsViewControllerRepresentable
  deriving DecidableEq, Repr

/-- One invocation of an underlying visit entry point: which entry point,
and its positional argument list. -/
structure VisitCall where
  fn : VisitFn
  args : List Addr
  deriving DecidableEq, Repr

/-- `c_visit_EnvironmentKey(visitor, metadata, conformance)`: calls
`_swift_visit_EnvironmentKey(visitor, metadata, metadata, conformance)`. -/
def c_visit_EnvironmentKey (visitor metadata conformance : Addr) : List VisitCall :=
  [⟨.environmentKey, [visitor, metadata, metadata, conformance]⟩]

/-- `c_visit_ViewTraitKey`: calls
`_swift_visit_ViewTraitKey(visitor, metadata, metadata, conformance)`. -/
def c_visit_ViewTraitKey (visitor metadata conformance : Addr) : List VisitCall :=
  [⟨.viewTraitKey, [visitor, metadata, metadata, conformance]⟩]

/-- `c_visit_View(visitor, metadata, conformance, descriptor)`: the branching
dispatcher. Under the iOS/tvOS/visionOS guard it compares the descriptor
against the UI representable descriptors; under the macOS guard against the
NS ones; otherwise it calls `_swift_visit_View` unconditionally. Each branch
performs exactly one call, always with arguments
`(visitor, metadata, metadata, conformance)`. -/
def c_visit_View (t : Target) (visitor metadata conformance descriptor : Addr) :
    List VisitCall :=
  if t.TARGET_OS_IOS || t.TARGET_OS_TV || t.TARGET_OS_VISION then
    if descriptor = _UIViewRepresentableProtocolDescriptor then
      [⟨.uiViewRepresentable, [visitor, metadata, metadata, conformance]⟩]
    else if descriptor = _UIViewControllerRepresentableProtocolDescriptor then
      [⟨.uiViewControllerRepresentable, [visitor, metadata, metadata, conformance]⟩]
    else
      [⟨.view, [visitor, metadata, metadata, conformance]⟩]
  else if t.TARGET_OS_OSX then
    if descriptor = _NSViewRepresentableProtocolDescriptor then
      [⟨.nsViewRepresentable, [visitor, metadata, metadata, conformance]⟩]
    else if descriptor = _NSViewControllerRepresentableProtocolDescriptor then
      [⟨.nsViewControllerRepresentable, [visitor, metadata, metadata, conformance]⟩]
    else
      [⟨.view, [visitor, metadata, metadata, conformance]⟩]
  else
    [⟨.view, [visitor, metadata, metadata, conformance]⟩]

/-- `c_visit_ViewModifier`: calls
`_swift_visit_ViewModifier(visitor, metadata, metadata, conformance)`. -/
def c_visit_ViewModifier (visitor metadata conformance : Addr) : List VisitCall :=
  [⟨.viewModifier, [visitor, metadata, metadata, conformance]⟩]

/-- `c_visit_MultiView(content, visitor, metadata, conformance)`: calls
`_swift_visit_MultiView(content, visitor, metadata, metadata, conformance)`,
the extra content handle positioned first. -/
def c_visit_MultiView (content visitor metadata conformance : Addr) : List VisitCall :=
  [⟨.multiView, [content, visitor, metadata, metadata, conformance]⟩]

/-- `c_swift_conformsToProtocol(metadata, descriptor)`: stores the result of
`swift_conformsToProtocol(metadata, descriptor)` in a local and returns it.
The runtime function is external, so it is a parameter; the second component
is the list of calls made to it (argument pairs, in order). The return type
is a plain `Addr` that may be `.null` ("does not conform"), not an error
type. -/
def c_swift_conformsToProtocol (swiftConformsToProtocol : Addr → Addr → Addr)
    (metadata descriptor : Addr) : Addr × List (Addr × Addr) :=
  let conformance := swiftConformsToProtocol metadata descriptor
  (conformance, [(metadata, descriptor)])

/-- `c_swift_isClassType(metadata)`: stores the result of
`swift_isClassType(metadata)` in a local and returns it. The second
component is the list of calls made to the runtime function. -/
def c_swift_isClassType (swiftIsClassType : Addr → Bool) (metadata : Addr) :
    Bool × List Addr :=
  let isClass := swiftIsClassType metadata
  (isClass, [metadata])

/-- The `*_VERSION_MAX_ALLOWED` availability macros tested by
`c_swift_isOpaqueTypeErasureEnabled`; `none` means the macro is not
defined, `some v` that it is defined with value `v`. -/
structure BuildConfig where
  IPHONE_OS_VERSION_MAX_ALLOWED : Option Nat
  WATCH_OS_VERSION_MAX_ALLOWED : Option Nat
  TV_OS_VERSION_MAX_ALLOWED : Option Nat
  VISION_OS_VERSION_MAX_ALLOWED : Option Nat
  MAC_OS_X_VERSION_MAX_ALLOWED : Option Nat
  deriving DecidableEq, Repr

/-- `__IPHONE_18_0` from Availability.h. -/
def IPHONE_18_0 : Nat := 180000

/-- `__IPHONE_18_4`. -/
def IPHONE_18_4 : Nat := 180400

/-- `__WATCHOS_11_0`. -/
def WATCHOS_11_0 : Nat := 110000

/-- `__WATCHOS_11_4`. -/
def WATCHOS_11_4 : Nat := 110400

/-- `__TVOS_18_0`. -/
def TVOS_18_0 : Nat := 180000

/-- `__TVOS_18_4`. -/
def TVOS_18_4 : Nat := 180400

/-- `__VISIONOS_2_0`. -/
def VISIONOS_2_0 : Nat := 20000

/-- `__VISIONOS_2_4`. -/
def VISIONOS_2_4 : Nat := 20400

/-- `__MAC_15_0`. -/
def MAC_15_0 : Nat := 150000

/-- `__MAC_15_4`. -/
def MAC_15_4 : Nat := 150400

/-- `c_swift_isOpaqueTypeErasureEnabled()`: the preprocessor
`#if defined / #elif defined / #else` chain over the five availability
macros, in source order (iPhone, watch, TV, vision, mac); within each
platform, `>= upper` returns false, `#elif >= lower` returns true, else
false; with no macro defined, false. -/
def c_swift_isOpaqueTypeErasureEnabled (cfg : BuildConfig) : Bool :=
  match cfg.IPHONE_OS_VERSION_MAX_ALLOWED with
  | some v => if v ≥ IPHONE_18_4 then false else if v ≥ IPHONE_18_0 then true else false
  | none =>
    match cfg.WATCH_OS_VERSION_MAX_ALLOWED with
    | some v => if v ≥ WATCHOS_11_4 then false else if v ≥ WATCHOS_11_0 then true else false
    | none =>
      match cfg.TV_OS_VERSION_MAX_ALLOWED with
      | some v => if v ≥ TVOS_18_4 then false else if v ≥ TVOS_18_0 then true else false
      | none =>
        match cfg.VISION_OS_VERSION_MAX_ALLOWED with
        | some v => if v ≥ VISIONOS_2_4 then false else if v ≥ VISIONOS_2_0 then true else false
        | none =>
          match cfg.MAC_OS_X_VERSION_MAX_ALLOWED with
          | some v => if v ≥ MAC_15_4 then false else if v ≥ MAC_15_0 then true else false
          | none => false

/-- A build configuration in which no recognized platform availability macro
is defined. -/
def noPlatformConfig : BuildConfig := ⟨none, none, none, none, none⟩

/-- C1: on an iOS/tvOS/visionOS build, every call to `c_visit_View` performs
exactly one underlying visit: the UIViewRepresentable visitor when the
descriptor is pointer-equal to the UIViewRepresentable descriptor, else the
UIViewControllerRepresentable visitor when pointer-equal to that descriptor,
else the generic View visitor — the branches are mutually exclusive. -/
theorem c_visit_View_ios_family (t : Target)
    (h : (t.TARGET_OS_IOS || t.TARGET_OS_TV || t.TARGET_OS_VISION) = true)
    (visitor metadata conformance descriptor : Addr) :
    c_visit_View t visitor metadata conformance descriptor =
      [⟨if descriptor = _UIViewRepresentableProtocolDescriptor then
          VisitFn.uiViewRepresentable
        else if descriptor = _UIViewControllerRepresentableProtocolDescriptor then
          VisitFn.uiViewControllerRepresentable
        else
          VisitFn.view,
        [visitor, metadata, metadata, conformance]⟩] := by
  by_cases h1 : descriptor = _UIViewRepresentableProtocolDescriptor <;>
  by_cases h2 : descriptor = _UIViewControllerRepresentableProtocolDescriptor <;>
  simp_all [c_visit_View, _UIViewRepresentableProtocolDescriptor,
    _UIViewControllerRepresentableProtocolDescriptor]

/-- Witness for C1 at a concrete iOS target and concrete addresses, the
descriptor being the UIViewRepresentable one. -/
theorem c_visit_View_ios_family_witness :
    c_visit_View ⟨true, false, false, false⟩ (.runtime 1) (.runtime 2) (.runtime 3)
        _UIViewRepresentableProtocolDescriptor =
      [⟨VisitFn.uiViewRepresentable, [.runtime 1, .runtime 2, .runtime 2, .runtime 3]⟩] := by
  have h := c_visit_View_ios_family ⟨true, false, false, false⟩ rfl
    (.runtime 1) (.runtime 2) (.runtime 3) _UIViewRepresentableProtocolDescriptor
  simpa using h

/-- C5: on a macOS build (desktop family, not in the iOS/tvOS/visionOS
guard), every call to `c_visit_View` performs exactly one underlying visit:
NSViewRepresentable when the descriptor is pointer-identical to that
descriptor, else NSViewControllerRepresentable when identical to that one,
else the generic View visitor. -/
theorem c_visit_View_macos_family (t : Target)
    (hi : t.TARGET_OS_IOS = false) (htv : t.TARGET_OS_TV = false)
    (hv : t.TARGET_OS_VISION = false) (hx : t.TARGET_OS_OSX = true)
    (visitor metadata conformance descriptor : Addr) :
    c_visit_View t visitor metadata conformance descriptor =
      [⟨if descriptor = _NSViewRepresentableProtocolDescriptor then
          VisitFn.nsViewRepresentable
        else if descriptor = _NSViewControllerRepresentableProtocolDescriptor then
          VisitFn.nsViewControllerRepresentable
        else
          VisitFn.view,
        [visitor, metadata, metadata, conformance]⟩] := by
  by_cases h1 : descriptor = _NSViewRepresentableProtocolDescriptor <;>
  by_cases h2 : descriptor = _NSViewControllerRepresentableProtocolDescriptor <;>
  simp_all [c_visit_View, _NSViewRepresentableProtocolDescriptor,
    _NSViewControllerRepresentableProtocolDescriptor]

/-- Witness for C5 at the concrete macOS target, the descriptor being the
NSViewControllerRepresentable one. -/
theorem c_visit_View_macos_family_witness :
    c_visit_View ⟨false, false, false, true⟩ (.runtime 1) (.runtime 2) (.runtime 3)
        _NSViewControllerRepresentableProtocolDescriptor =
      [⟨VisitFn.nsViewControllerRepresentable,
        [.runtime 1, .runtime 2, .runtime 2, .runtime 3]⟩] := by
  have h := c_visit_View_macos_family ⟨false, false, false, true⟩ rfl rfl rfl rfl
    (.runtime 1) (.runtime 2) (.runtime 3) _NSViewControllerRepresentableProtocolDescriptor
  simpa using h

/-- C6: on a platform outside both the iOS/tvOS/visionOS family and the
macOS family, the four native-representable descriptor accessors are
compiled out, and `c_visit_View` invokes exactly the generic View visitor for
every descriptor value. -/
theorem c_visit_View_unsupported_platform (t : Target)
    (hi : t.TARGET_OS_IOS = false) (htv : t.TARGET_OS_TV = false)
    (hv : t.TARGET_OS_VISION = false) (hx : t.TARGET_OS_OSX = false)
    (visitor metadata conformance descriptor : Addr) :
    ProtocolSymbol.uiViewRepresentable ∉ compiledDescriptorSymbols t ∧
    ProtocolSymbol.uiViewControllerRepresentable ∉ compiledDescriptorSymbols t ∧
    ProtocolSymbol.nsViewRepresentable ∉ compiledDescriptorSymbols t ∧
    ProtocolSymbol.nsViewControllerRepresentable ∉ compiledDescriptorSymbols t ∧
    c_visit_View t visitor metadata conformance descriptor =
      [⟨VisitFn.view, [visitor, metadata, metadata, conformance]⟩] := by
  refine ⟨?_, ?_, ?_, ?_, ?_⟩ <;>
  simp [compiledDescriptorSymbols, c_visit_View, hi, htv, hv, hx]

/-- Witness for C6 at the all-false target, with a representable descriptor
address supplied anyway. -/
theorem c_visit_View_unsupported_platform_witness :
    ProtocolSymbol.uiViewRepresentable ∉
        compiledDescriptorSymbols ⟨false, false, false, false⟩ ∧
    ProtocolSymbol.uiViewControllerRepresentable ∉
        compiledDescriptorSymbols ⟨false, false, false, false⟩ ∧
    ProtocolSymbol.nsViewRepresentable ∉
        compiledDescriptorSymbols ⟨false, false, false, false⟩ ∧
    ProtocolSymbol.nsViewControllerRepresentable ∉
        compiledDescriptorSymbols ⟨false, false, false, false⟩ ∧
    c_visit_View ⟨false, false, false, false⟩ (.runtime 1) (.runtime 2) (.runtime 3)
        _UIViewRepresentableProtocolDescriptor =
      [⟨VisitFn.view, [.runtime 1, .runtime 2, .runtime 2, .runtime 3]⟩] :=
  c_visit_View_unsupported_platform ⟨false, false, false, false⟩ rfl rfl rfl rfl
    (.runtime 1) (.runtime 2) (.runtime 3) _UIViewRepresentableProtocolDescriptor

/-- C2: `c_swift_isOpaqueTypeErasureEnabled` is a pure function of the
build configuration; on a build targeting iOS (the iPhone max-version macro
defined with value `v`) it returns true exactly when
`18.0 ≤ v < 18.4` in the availability encoding — so false for 18.4 or
later and false below 18.0 — and on a build with no recognized platform
macro defined it returns false. -/
theorem c_swift_isOpaqueTypeErasureEnabled_ios_window (cfg : BuildConfig) (v : Nat)
    (h : cfg.IPHONE_OS_VERSION_MAX_ALLOWED = some v) :
    c_swift_isOpaqueTypeErasureEnabled cfg =
      (decide (IPHONE_18_0 ≤ v) && decide (v < IPHONE_18_4)) ∧
    c_swift_isOpaqueTypeErasureEnabled noPlatformConfig = false := by
  constructor
  · by_cases h4 : v ≥ IPHONE_18_4 <;> by_cases h0 : v ≥ IPHONE_18_0 <;>
    simp_all [c_swift_isOpaqueTypeErasureEnabled, IPHONE_18_0, IPHONE_18_4]
  · rfl

/-- Witness for C2: an iOS build with max allowed version 18.1 (181000 is
not used; 180100 is the encoding of 18.1) enables the flag. -/
theorem c_swift_isOpaqueTypeErasureEnabled_ios_window_witness :
    c_swift_isOpaqueTypeErasureEnabled ⟨some 180100, none, none, none, none⟩ =
      (decide (IPHONE_18_0 ≤ 180100) && decide (180100 < IPHONE_18_4)) ∧
    c_swift_isOpaqueTypeErasureEnabled noPlatformConfig = false :=
  c_swift_isOpaqueTypeErasureEnabled_ios_window ⟨some 180100, none, none, none, none⟩
    180100 rfl

/-- C8: the per-platform legacy-type-erasure windows fixed by the code:
with the earlier macros of the `#elif` chain undefined, the flag is true
exactly when the platform's max allowed version lies in [11.0, 11.4) on
watchOS, [18.0, 18.4) on tvOS, [2.0, 2.4) on visionOS, and [15.0, 15.4) on
macOS. -/
theorem c_swift_isOpaqueTypeErasureEnabled_platform_windows (cfg : BuildConfig) (v : Nat) :
    (cfg.IPHONE_OS_VERSION_MAX_ALLOWED = none →
      cfg.WATCH_OS_VERSION_MAX_ALLOWED = some v →
      c_swift_isOpaqueTypeErasureEnabled cfg =
        (decide (WATCHOS_11_0 ≤ v) && decide (v < WATCHOS_11_4))) ∧
    (cfg.IPHONE_OS_VERSION_MAX_ALLOWED = none →
      cfg.WATCH_OS_VERSION_MAX_ALLOWED = none →
      cfg.TV_OS_VERSION_MAX_ALLOWED = some v →
      c_swift_isOpaqueTypeErasureEnabled cfg =
        (decide (TVOS_18_0 ≤ v) && decide (v < TVOS_18_4))) ∧
    (cfg.IPHONE_OS_VERSION_MAX_ALLOWED = none →
      cfg.WATCH_OS_VERSION_MAX_ALLOWED = none →
      cfg.TV_OS_VERSION_MAX_ALLOWED = none →
      cfg.VISION_OS_VERSION_MAX_ALLOWED = some v →
      c_swift_isOpaqueTypeErasureEnabled cfg =
        (decide (VISIONOS_2_0 ≤ v) && decide (v < VISIONOS_2_4))) ∧
    (cfg.IPHONE_OS_VERSION_MAX_ALLOWED = none →
      cfg.WATCH_OS_VERSION_MAX_ALLOWED = none →
      cfg.TV_OS_VERSION_MAX_ALLOWED = none →
      cfg.VISION_OS_VERSION_MAX_ALLOWED = none →
      cfg.MAC_OS_X_VERSION_MAX_ALLOWED = some v →
      c_swift_isOpaqueTypeErasureEnabled cfg =
        (decide (MAC_15_0 ≤ v) && decide (v < MAC_15_4))) := by
  refine ⟨?_, ?_, ?_, ?_⟩ <;> intros <;>
  [skip; skip; skip; skip] <;>
  first
  | (by_cases h4 : v ≥ WATCHOS_11_4 <;> by_cases h0 : v ≥ WATCHOS_11_0 <;>
      simp_all [c_swift_isOpaqueTypeErasureEnabled, WATCHOS_11_0, WATCHOS_11_4] <;> omega)
  | (by_cases h4 : v ≥ TVOS_18_4 <;> by_cases h0 : v ≥ TVOS_18_0 <;>
      simp_all [c_swift_isOpaqueTypeErasureEnabled, TVOS_18_0, TVOS_18_4] <;> omega)
  | (by_cases h4 : v ≥ VISIONOS_2_4 <;> by_cases h0 : v ≥ VISIONOS_2_0 <;>
      simp_all [c_swift_isOpaqueTypeErasureEnabled, VISIONOS_2_0, VISIONOS_2_4] <;> omega)
  | (by_cases h4 : v ≥ MAC_15_4 <;> by_cases h0 : v ≥ MAC_15_0 <;>
      simp_all [c_swift_isOpaqueTypeErasureEnabled, MAC_15_0, MAC_15_4])

/-- Witness for C8: a watchOS build with max allowed version 11.0 — the
first conjunct applied at a concrete configuration. -/
theorem c_swift_isOpaqueTypeErasureEnabled_platform_windows_witness :
    c_swift_isOpaqueTypeErasureEnabled ⟨none, some 110000, none, none, none⟩ =
      (decide (WATCHOS_11_0 ≤ 110000) && decide (110000 < WATCHOS_11_4)) :=
  (c_swift_isOpaqueTypeErasureEnabled_platform_windows
    ⟨none, some 110000, none, none, none⟩ 110000).1 rfl rfl

/-- C3: for every runtime oracle and arguments, `c_swift_conformsToProtocol`
calls `swift_conformsToProtocol` exactly once (trace is the single pair of
its arguments) and returns its result unchanged — including when that
result is `.null`, which is a value, not an error — and `c_swift_isClassType`
calls `swift_isClassType` exactly once and returns its boolean unchanged.
Both are pure state-passing-free functions: no mutation, no retry. -/
theorem c_swift_wrappers_forward (swiftConformsToProtocol : Addr → Addr → Addr)
    (swiftIsClassType : Addr → Bool) (metadata descriptor : Addr) :
    c_swift_conformsToProtocol swiftConformsToProtocol metadata descriptor =
      (swiftConformsToProtocol metadata descriptor, [(metadata, descriptor)]) ∧
    c_swift_isClassType swiftIsClassType metadata =
      (swiftIsClassType metadata, [metadata]) :=
  ⟨rfl, rfl⟩

/-- C4: the non-branching visit entry points unconditionally forward to
their fixed underlying visit function with the tuple
`(visitor, metadata, metadata, conformance)` — metadata passed twice — and
`c_visit_MultiView` forwards `(content, visitor, metadata, metadata,
conformance)` with the content handle positioned first. -/
theorem c_visit_forwarders (content visitor metadata conformance : Addr) :
    c_visit_EnvironmentKey visitor metadata conformance =
      [⟨VisitFn.environmentKey, [visitor, metadata, metadata, conformance]⟩] ∧
    c_visit_ViewTraitKey visitor metadata conformance =
      [⟨VisitFn.viewTraitKey, [visitor, metadata, metadata, conformance]⟩] ∧
    c_visit_ViewModifier visitor metadata conformance =
      [⟨VisitFn.viewModifier, [visitor, metadata, metadata, conformance]⟩] ∧
    c_visit_MultiView content visitor metadata conformance =
      [⟨VisitFn.multiView, [content, visitor, metadata, metadata, conformance]⟩] :=
  ⟨rfl, rfl, rfl, rfl⟩

/-- C7: for every known protocol name, the descriptor accessor succeeds
with the address of the statically linked marker for that protocol; the
address is non-null and stable: any two calls return pointer-equal
addresses. (The accessors read no state, so there is no side effect to
observe.) -/
theorem descriptor_for_stable_nonnull (p : ProtocolSymbol) (i j : Nat) :
    descriptor_for p i = descriptor_for p j ∧
    descriptor_for p i ≠ Addr.null ∧
    descriptor_for p i = Addr.symbol p := by
  cases p <;>
  simp [descriptor_for, _EnvironmentKeyProtocolDescriptor,
    _ViewTraitKeyProtocolDescriptor, _ViewProtocolDescriptor,
    _ViewModifierProtocolDescriptor, _MultiViewProtocolDescriptor,
    _UIViewRepresentableProtocolDescriptor,
    _UIViewControllerRepresentableProtocolDescriptor,
    _NSViewRepresentableProtocolDescriptor,
    _NSViewControllerRepresentableProtocolDescriptor]

/-- C9: in `c_visit_View` the descriptor influences only which visitor is
chosen, never the payload: every call in the trace carries exactly the
argument list `[visitor, metadata, metadata, conformance]` (so the
descriptor is never forwarded), and two runs differing only in the
descriptor produce identical argument lists. -/
theorem c_visit_View_descriptor_noninterference (t : Target)
    (visitor metadata conformance d d' : Addr) :
    (c_visit_View t visitor metadata conformance d).map VisitCall.args =
      [[visitor, metadata, metadata, conformance]] ∧
    (c_visit_View t visitor metadata conformance d).map VisitCall.args =
      (c_visit_View t visitor metadata conformance d').map VisitCall.args := by
  constructor <;> (unfold c_visit_View; split_ifs <;> rfl)

/-- C10: the descriptor accessors return pairwise distinct addresses, so
pointer-equality dispatch is unambiguous — a descriptor matches at most one
branch — and in particular the plain View protocol descriptor never selects
a representable branch: with it, `c_visit_View` fires the generic View
visitor on every target. -/
theorem descriptor_for_pairwise_distinct (p q : ProtocolSymbol) (i j : Nat)
    (h : p ≠ q) :
    descriptor_for p i ≠ descriptor_for q j ∧
    (∀ (t : Target) (visitor metadata conformance : Addr),
      (c_visit_View t visitor metadata conformance _ViewProtocolDescriptor).map
          VisitCall.fn = [VisitFn.view]) := by
  constructor
  · cases p <;> cases q <;>
    simp_all [descriptor_for, _EnvironmentKeyProtocolDescriptor,
      _ViewTraitKeyProtocolDescriptor, _ViewProtocolDescriptor,
      _ViewModifierProtocolDescriptor, _MultiViewProtocolDescriptor,
      _UIViewRepresentableProtocolDescriptor,
      _UIViewControllerRepresentableProtocolDescriptor,
      _NSViewRepresentableProtocolDescriptor,
      _NSViewControllerRepresentableProtocolDescriptor]
  · intro t visitor metadata conformance
    unfold c_visit_View
    split_ifs with h1 h2 h3 h4 h5 <;>
    simp_all [_ViewProtocolDescriptor, _UIViewRepresentableProtocolDescriptor,
      _UIViewControllerRepresentableProtocolDescriptor,
      _NSViewRepresentableProtocolDescriptor,
      _NSViewControllerRepresentableProtocolDescriptor]

/-- Witness for C10: the View descriptor differs from the
UIViewRepresentable descriptor, and on a concrete iOS target the View
descriptor selects the generic View visitor. -/
theorem descriptor_for_pairwise_distinct_witness :
    descriptor_for ProtocolSymbol.view 0 ≠
      descriptor_for ProtocolSymbol.uiViewRepresentable 1 ∧
    (∀ (t : Target) (visitor metadata conformance : Addr),
      (c_visit_View t visitor metadata conformance _ViewProtocolDescriptor).map
          VisitCall.fn = [VisitFn.view]) :=
  descriptor_for_pairwise_distinct ProtocolSymbol.view
    ProtocolSymbol.uiViewRepresentable 0 1 (by decide)

end EngineCoreC
